import Mathlib

/-!
Verification development for the MarsPro integration (dual-transport device
control layer).  The Python sources are shallowly embedded: Python dicts become
association lists, `await`-based I/O becomes explicit outcome parameters
("oracles") describing what the transport returned, and raised exceptions
become `Except` results.  Every definition mirrors one function of the source
tree (named in its doc comment).
-/

namespace MarsPro

/-- Python-style primitive values stored in device dictionaries. -/
inductive PVal where
  | vStr : String → PVal
  | vInt : Int → PVal
  | vBool : Bool → PVal
  deriving DecidableEq, Repr

/-- A Python dict, embedded as an association list with unique keys:
`alGet` returns the first binding, `alSet` replaces in place or appends. -/
def alGet {κ α : Type} [DecidableEq κ] : List (κ × α) → κ → Option α
  | [], _ => none
  | (k', v) :: rest, k => if k' = k then some v else alGet rest k

/-- Python `d[k] = v` on a unique-key association list. -/
def alSet {κ α : Type} [DecidableEq κ] : List (κ × α) → κ → α → List (κ × α)
  | [], k, v => [(k, v)]
  | (k', v') :: rest, k, v =>
      if k' = k then (k, v) :: rest else (k', v') :: alSet rest k v

/-- A Python dict with string keys and primitive values (one device record). -/
abbrev Rec := List (String × PVal)

/-- Python `d.get(k)` on a device record. -/
def dictGet (d : Rec) (k : String) : Option PVal := alGet d k

/-- Python `base.update(overlay)`: every binding of `overlay` is written into
`base`, in order. -/
def dictUpdate (base overlay : Rec) : Rec :=
  overlay.foldl (fun acc kv => alSet acc kv.1 kv.2) base

/-- Python truthiness of a primitive value (`if device_id:`). -/
def pyTruthy : PVal → Bool
  | .vStr s => !(s == "")
  | .vInt n => !(n == 0)
  | .vBool b => b

/-- The coordinator's registry `self.devices`: device id → device record.
Keys are the values produced by `device.get("id")`. -/
abbrev Registry := List (PVal × Rec)

/-! ## `custom_components/marspro/coordinator.py` -/

/-- One iteration of the `for device in devices` loop of
`MarsProDataUpdateCoordinator._async_update_data`.  `devicesPrev` is
`self.devices` at entry, `statusOf` gives the outcome of
`self.api.get_device_status(device_id)` (`.error` = the call raised),
`updated` is the `updated_devices` accumulator. -/
def updateDeviceStep (devicesPrev : Registry) (statusOf : PVal → Except Unit Rec)
    (updated : Registry) (device : Rec) : Registry :=
  match dictGet device "id" with
  | none => updated
  | some device_id =>
      if pyTruthy device_id then
        match statusOf device_id with
        | .ok status => alSet updated device_id (dictUpdate device status)
        | .error _ =>
            match alGet devicesPrev device_id with
            | some old => alSet updated device_id old
            | none => alSet updated device_id device
      else updated

/-- `MarsProDataUpdateCoordinator._async_update_data`.  `listing` is the
outcome of `self.api.get_devices()` (`.error` = it raised, in which case the
method raises `UpdateFailed`, here `.error ()`). -/
def async_update_data (devicesPrev : Registry) (listing : Except Unit (List Rec))
    (statusOf : PVal → Except Unit Rec) : Except Unit Registry :=
  match listing with
  | .error _ => .error ()
  | .ok devices => .ok (devices.foldl (updateDeviceStep devicesPrev statusOf) [])

/-- A whole refresh cycle as seen on `self.devices`: on success the registry is
replaced by the update result; when `_async_update_data` raises `UpdateFailed`
the assignment `self.devices = updated_devices` is never reached, so the
registry keeps its prior value.  The boolean is `true` iff the cycle
succeeded (`false` = `UpdateFailed` was raised). -/
def refreshDevices (devicesPrev : Registry) (listing : Except Unit (List Rec))
    (statusOf : PVal → Except Unit Rec) : Registry × Bool :=
  match async_update_data devicesPrev listing statusOf with
  | .ok upd => (upd, true)
  | .error _ => (devicesPrev, false)

/-- The host framework's `DataUpdateCoordinator.async_request_refresh`
(external collaborator): it runs `_async_update_data` and records an
`UpdateFailed` internally without raising it to the caller. -/
def async_request_refresh (devicesPrev : Registry) (listing : Except Unit (List Rec))
    (statusOf : PVal → Except Unit Rec) : Registry :=
  (refreshDevices devicesPrev listing statusOf).1

/-- `MarsProDataUpdateCoordinator.send_command`.  `apiResult` is the outcome of
`self.api.send_command(...)`; on success the coordinator requests a refresh
(whose own failure is absorbed by the framework) and returns the command
result; on failure the exception is re-raised and the registry untouched.
Returns (registry after the call, reported outcome). -/
def send_command (devicesPrev : Registry) (apiResult : Except Unit Rec)
    (listing : Except Unit (List Rec)) (statusOf : PVal → Except Unit Rec) :
    Registry × Except Unit Rec :=
  match apiResult with
  | .error e => (devicesPrev, .error e)
  | .ok result => (async_request_refresh devicesPrev listing statusOf, .ok result)

/-- `MarsProDataUpdateCoordinator.get_device`: `self.devices.get(device_id, {})`. -/
def get_device (devices : Registry) (device_id : String) : Rec :=
  (alGet devices (PVal.vStr device_id)).getD []

/-- `MarsProDataUpdateCoordinator.get_devices`: `list(self.devices.values())`. -/
def get_devices (devices : Registry) : List Rec :=
  devices.map Prod.snd

/-- `MarsProDataUpdateCoordinator.get_devices_by_type`: the list comprehension
filtering on `device.get("type") == device_type`. -/
def get_devices_by_type (devices : Registry) (device_type : String) : List Rec :=
  (devices.map Prod.snd).filter
    (fun d => decide (dictGet d "type" = some (PVal.vStr device_type)))

/-! ## `src/marspro/ble_client_standalone.py` -/

/-- `MarsProBLEClient` command codes (the ones the claims touch). -/
def CMD_SET_LIGHT : Nat := 0x10

/-- `MarsProBLEClient.CMD_SET_TEMPERATURE`. -/
def CMD_SET_TEMPERATURE : Nat := 0x20

/-- `MarsProBLEClient.CMD_SET_HUMIDITY`. -/
def CMD_SET_HUMIDITY : Nat := 0x21

/-- `MarsProBLEClient._build_command_packet`.  The packet starts with the
command-type byte; for `CMD_SET_LIGHT` one byte of intensity is appended via
`struct.pack('B', intensity)` (which raises unless 0 ≤ intensity ≤ 255, and
raises on non-integer values); `data.get('intensity', 0)` supplies 0 when the
key is absent.  The `CMD_SET_TEMPERATURE` / `CMD_SET_HUMIDITY` branches pack
an IEEE-754 float and are outside this model (no theorem evaluates the
function at those opcodes; they are mapped to `.error ()` only to keep the
function total); every other command type yields the bare opcode byte. -/
def build_command_packet (command_type : Nat) (data : Rec) : Except Unit (List Nat) :=
  if command_type = CMD_SET_LIGHT then
    match (dictGet data "intensity").getD (PVal.vInt 0) with
    | PVal.vInt i =>
        if 0 ≤ i ∧ i ≤ 255 then .ok [command_type, i.toNat] else .error ()
    | _ => .error ()
  else if command_type = CMD_SET_TEMPERATURE ∨ command_type = CMD_SET_HUMIDITY then
    .error ()
  else .ok [command_type]

/-- `MarsProSensorData`, with the float fields carried as rationals (every
constant the source uses is an exact decimal). -/
structure MarsProSensorData where
  temperature : Option ℚ := none
  humidity : Option ℚ := none
  co2 : Option ℚ := none
  vpd : Option ℚ := none
  ppfd : Option ℚ := none
  wind_speed : Option ℚ := none
  wind_pressure : Option ℚ := none
  air_volume : Option ℚ := none
  timestamp : Option ℚ := none
  deriving DecidableEq, Repr

/-- `MarsProBLEClient._parse_sensor_data`: returns the fixed placeholder
sample whatever the frame contains; `t` is the event-loop time read at the
call (`asyncio.get_event_loop().time()`). -/
def parse_sensor_data (t : ℚ) (data : List Nat) : MarsProSensorData :=
  { temperature := some (51/2)
    humidity := some 60
    co2 := some 400
    vpd := some (6/5)
    ppfd := some 500
    wind_speed := some (5/2)
    wind_pressure := some (4053/4)
    air_volume := some 100
    timestamp := some t }

/-- The mutable fields of `MarsProBLEClient` the connect lifecycle touches:
`_connected`, and the UUIDs stored into `self._services` /
`self._characteristics` (dict-keyed storage modelled as the list of stored
UUIDs). -/
structure BLEClientState where
  connected : Bool
  services : List String
  characteristics : List String
  deriving DecidableEq, Repr

/-- `MarsProBLEClient.connect`.  Oracle arguments: `connectOk` is whether
`BleakClient.connect()` returns (rather than raises); `discovered` is the
result of `get_services()` as (service uuid, its characteristic uuids) pairs,
`none` meaning that call raised.  `self.client = BleakClient(...)` always
yields a truthy object, so the `if self.client:` guard always passes.  On any
exception the handler logs and returns `false`; only after service discovery
completes is `_connected` set and `true` returned. -/
def connect (st : BLEClientState) (connectOk : Bool)
    (discovered : Option (List (String × List String))) : BLEClientState × Bool :=
  if connectOk then
    match discovered with
    | some services =>
        ({ connected := true
           services := st.services ++ services.map Prod.fst
           characteristics := st.characteristics ++ (services.map Prod.snd).flatten }, true)
    | none => (st, false)
  else (st, false)

/-! ## `src/marspro/api.py` -/

/-- The parsing step of `MarsProAPI._get_device_status_ble`, applied to the
bytes read from the status characteristic.  An empty frame makes
`status_data[0]` raise `IndexError`, which the handler re-raises (`.error`);
otherwise the record is built, `brightness` falling back to the literal 100
when the frame has fewer than two bytes. -/
def parse_status_ble (status_data : List Nat) : Except Unit Rec :=
  match status_data with
  | [] => .error ()
  | b0 :: rest =>
      .ok [("power", PVal.vStr (if b0 = 1 then "on" else "off")),
           ("brightness", PVal.vInt (match rest with | [] => (100 : Int) | b1 :: _ => (b1 : Int))),
           ("online", PVal.vBool true)]

/-- `MarsProAPI._build_ble_command`: the literal payloads, `ValueError` on an
unknown command; `set_brightness` reads `kwargs.get("brightness", 100)` and
`bytes([0x02, brightness])` raises unless the value is an integer in
0 ≤ b ≤ 255. -/
def build_ble_command (command : String) (kwargs : Rec) : Except Unit (List Nat) :=
  if command = "power_on" then .ok [1, 1]
  else if command = "power_off" then .ok [1, 0]
  else if command = "set_brightness" then
    match (dictGet kwargs "brightness").getD (PVal.vInt 100) with
    | PVal.vInt b => if 0 ≤ b ∧ b ≤ 255 then .ok [2, b.toNat] else .error ()
    | _ => .error ()
  else .error ()

/-- The transport I/O a call of `MarsProAPI._send_command_ble` can perform. -/
inductive BLEAct where
  | connectAttempt : BLEAct
  | writeGatt : List Nat → BLEAct
  deriving DecidableEq, Repr

/-- The part of `MarsProAPI._send_command_ble` after the link is usable:
build the payload (`ValueError` on unknown command, before any write) and
write it to the characteristic. -/
def send_command_ble_body (pre : List BLEAct) (command : String) (kwargs : Rec)
    (writeOk : Bool) : List BLEAct × Except Unit Rec :=
  match build_ble_command command kwargs with
  | .error e => (pre, .error e)
  | .ok payload =>
      if writeOk then
        (pre ++ [BLEAct.writeGatt payload],
         .ok [("status", PVal.vStr "success"), ("command", PVal.vStr command)])
      else (pre ++ [BLEAct.writeGatt payload], .error ())

/-- `MarsProAPI._send_command_ble`.  When the client is absent or not
connected, `_connect_ble()` runs first (a transport connection attempt,
raising on failure); only then is the payload built and written.  Returns the
I/O actions performed, in order, and the reported outcome. -/
def send_command_ble (isConnected : Bool) (connectOk : Bool) (command : String)
    (kwargs : Rec) (writeOk : Bool) : List BLEAct × Except Unit Rec :=
  if isConnected then
    send_command_ble_body [] command kwargs writeOk
  else if connectOk then
    send_command_ble_body [BLEAct.connectAttempt] command kwargs writeOk
  else ([BLEAct.connectAttempt], .error ())

/-- The fields of `MarsProAPI` the cloud path touches: whether
`self.session` exists and the cached `self.auth_token`. -/
structure CloudState where
  session : Bool
  authToken : Option String
  deriving DecidableEq, Repr

/-- Python falsiness of `self.auth_token` (`None` or the empty string). -/
def tokenFalsy : Option String → Bool
  | none => true
  | some s => s == ""

/-- The HTTP exchanges a cloud call can perform. -/
inductive CloudAct where
  | loginPost : CloudAct
  | getDevicesReq : CloudAct
  deriving DecidableEq, Repr

/-- `MarsProAPI._authenticate`.  Raises `RuntimeError` when no session exists
(before any request); otherwise performs the `POST /auth/login` exchange:
on HTTP 200 the token from the body is assigned to `self.auth_token` and a
falsy token then raises; any other status raises.  Oracle arguments:
`loginStatus` is the HTTP status, `respToken` is `data.get("token")`. -/
def authenticate (st : CloudState) (loginStatus : Nat) (respToken : Option String) :
    List CloudAct × CloudState × Except Unit Unit :=
  if !st.session then ([], st, .error ())
  else if loginStatus = 200 then
    ([CloudAct.loginPost], { st with authToken := respToken },
     if tokenFalsy respToken then .error () else .ok ())
  else ([CloudAct.loginPost], st, .error ())

/-- `MarsProAPI._get_devices_cloud`.  When the session or the cached token is
falsy, `_authenticate()` runs first; then exactly one `GET /devices` is
issued: HTTP 200 yields `data.get("devices", [])`, any other status raises
`ValueError` with the cached token left as is.  Oracle arguments:
`getStatus` / `devList` describe that single response.  Returns the HTTP
exchanges performed, in order, the post-call state, and the outcome. -/
def get_devices_cloud (st : CloudState) (loginStatus : Nat) (respToken : Option String)
    (getStatus : Nat) (devList : List Rec) :
    List CloudAct × CloudState × Except Unit (List Rec) :=
  match
    (if !st.session || tokenFalsy st.authToken
     then authenticate st loginStatus respToken
     else ([], st, .ok ())) with
  | (acts, st1, .error e) => (acts, st1, .error e)
  | (acts, st1, .ok _) =>
      if getStatus = 200 then (acts ++ [CloudAct.getDevicesReq], st1, .ok devList)
      else (acts ++ [CloudAct.getDevicesReq], st1, .error ())

/-! ## Association-list lemmas -/

/-- Looking up the key just written returns the written value. -/
theorem alGet_alSet_self {κ α : Type} [DecidableEq κ] (d : List (κ × α)) (k : κ) (v : α) :
    alGet (alSet d k v) k = some v := by
  induction d with
  | nil => simp [alGet, alSet]
  | cons hd tl ih =>
      obtain ⟨k', v'⟩ := hd
      by_cases h : k' = k <;> simp [alGet, alSet, h, ih]

/-- Writing one key leaves every other key's binding unchanged. -/
theorem alGet_alSet_ne {κ α : Type} [DecidableEq κ] (d : List (κ × α)) (k k' : κ) (v : α)
    (h : k' ≠ k) : alGet (alSet d k' v) k = alGet d k := by
  induction d with
  | nil => simp [alGet, alSet, h]
  | cons hd tl ih =>
      obtain ⟨k0, v0⟩ := hd
      by_cases h0 : k0 = k'
      · subst h0; simp [alGet, alSet, h]
      · simp [alGet, alSet, h0, ih]

/-- The device loop of `_async_update_data` only ever writes under a key that
is the `"id"` of some listed device: a key no listed device carries stays
absent from the accumulator. -/
theorem foldl_updateDeviceStep_absent (devicesPrev : Registry)
    (statusOf : PVal → Except Unit Rec) (devices : List Rec) (k : PVal)
    (h : ∀ d ∈ devices, dictGet d "id" ≠ some k) (acc : Registry)
    (hacc : alGet acc k = none) :
    alGet (devices.foldl (updateDeviceStep devicesPrev statusOf) acc) k = none := by
  induction devices generalizing acc with
  | nil => simpa using hacc
  | cons d rest ih =>
      refine ih (fun d' hd' => h d' (List.mem_cons_of_mem _ hd')) _ ?_
      have hd : dictGet d "id" ≠ some k := h d (List.mem_cons_self _ _)
      unfold updateDeviceStep
      cases hid : dictGet d "id" with
      | none => exact hacc
      | some did =>
          have hdk : did ≠ k := fun he => hd (by rw [hid, he])
          by_cases ht : pyTruthy did
          · simp only [ht, if_true]
            cases hst : statusOf did with
            | ok status => rw [alGet_alSet_ne _ _ _ _ hdk]; exact hacc
            | error e =>
                cases hpr : alGet devicesPrev did <;>
                  (rw [alGet_alSet_ne _ _ _ _ hdk]; exact hacc)
          · simpa [ht] using hacc

/-! ## Claim theorems -/

/-- C2: for every prior registry, if `get_devices` raises then
`_async_update_data` raises `UpdateFailed` (`.error`), and the refresh leaves
`self.devices` identical to its prior value — no partial overwrite. -/
theorem refresh_list_failure_leaves_registry (devicesPrev : Registry)
    (statusOf : PVal → Except Unit Rec) :
    async_update_data devicesPrev (.error ()) statusOf = .error ()
  ∧ refreshDevices devicesPrev (.error ()) statusOf = (devicesPrev, false) :=
  ⟨rfl, rfl⟩

/-- C4: when the transport reports the command successful but the following
refresh raises `UpdateFailed`, `send_command` still reports the command's
success and the registry is left at its pre-command contents. -/
theorem send_command_success_survives_refresh_failure (devicesPrev : Registry)
    (result : Rec) (statusOf : PVal → Except Unit Rec) :
    send_command devicesPrev (.ok result) (.error ()) statusOf
      = (devicesPrev, .ok result) :=
  rfl

/-- C7 counterexample: a one-byte status frame — shorter than the two-byte
power+brightness layout — is NOT a parse error: the decoder substitutes the
default brightness 100 and returns a best-effort record. -/
theorem parse_status_short_frame_defaulted :
    parse_status_ble [1]
      = .ok [("power", PVal.vStr "on"), ("brightness", PVal.vInt 100),
             ("online", PVal.vBool true)] :=
  rfl

/-- C7 amended: an empty status frame raises (the `IndexError` from
`status_data[0]` is re-raised), while a one-byte frame yields a defaulted
record with `brightness` coerced to the literal 100, never an error. -/
theorem parse_status_ble_behaviour (b : Nat) :
    parse_status_ble [] = .error ()
  ∧ parse_status_ble [b]
      = .ok [("power", PVal.vStr (if b = 1 then "on" else "off")),
             ("brightness", PVal.vInt 100), ("online", PVal.vBool true)] :=
  ⟨rfl, rfl⟩

/-- C1: during one refresh over two known devices, if reading B's status
fails while A's succeeds, the registry afterwards maps A to its freshly read
record (the listed record updated with the status fields) and maps B to
exactly the record it had before — neither removed nor nulled — and the
refresh succeeds. -/
theorem refresh_partial_failure_keeps_lastgood
    (devicesPrev : Registry) (statusOf : PVal → Except Unit Rec)
    (devA devB oldA oldB stA : Rec) (ida idb : String)
    (hA : dictGet devA "id" = some (PVal.vStr ida)) (hta : ida ≠ "")
    (hB : dictGet devB "id" = some (PVal.vStr idb)) (htb : idb ≠ "")
    (hne : ida ≠ idb)
    (hpa : alGet devicesPrev (PVal.vStr ida) = some oldA)
    (hpb : alGet devicesPrev (PVal.vStr idb) = some oldB)
    (hsa : statusOf (PVal.vStr ida) = .ok stA)
    (hsb : statusOf (PVal.vStr idb) = .error ()) :
    alGet (refreshDevices devicesPrev (.ok [devA, devB]) statusOf).1 (PVal.vStr ida)
      = some (dictUpdate devA stA)
  ∧ alGet (refreshDevices devicesPrev (.ok [devA, devB]) statusOf).1 (PVal.vStr idb)
      = some oldB
  ∧ (refreshDevices devicesPrev (.ok [devA, devB]) statusOf).2 = true := by
  have hba : PVal.vStr idb ≠ PVal.vStr ida := fun h => hne (PVal.vStr.inj h).symm
  have hreg : (refreshDevices devicesPrev (.ok [devA, devB]) statusOf).1
      = alSet (alSet [] (PVal.vStr ida) (dictUpdate devA stA)) (PVal.vStr idb) oldB := by
    simp [refreshDevices, async_update_data, updateDeviceStep, hA, hB, hsa, hsb, hpb,
          pyTruthy, hta, htb]
  refine ⟨?_, ?_, rfl⟩
  · rw [hreg, alGet_alSet_ne _ _ _ _ hba, alGet_alSet_self]
  · rw [hreg, alGet_alSet_self]

/-- C1 witness: a concrete two-device refresh in which device "b"'s status
read raises and device "a"'s succeeds. -/
theorem refresh_partial_failure_keeps_lastgood_witness :
    alGet (refreshDevices
        [(PVal.vStr "a", [("id", PVal.vStr "a"), ("power", PVal.vStr "off")]),
         (PVal.vStr "b", [("id", PVal.vStr "b"), ("power", PVal.vStr "off")])]
        (.ok [[("id", PVal.vStr "a")], [("id", PVal.vStr "b")]])
        (fun d => if d = PVal.vStr "a"
                  then .ok [("power", PVal.vStr "on")] else .error ())).1
      (PVal.vStr "a")
      = some (dictUpdate [("id", PVal.vStr "a")] [("power", PVal.vStr "on")])
  ∧ alGet (refreshDevices
        [(PVal.vStr "a", [("id", PVal.vStr "a"), ("power", PVal.vStr "off")]),
         (PVal.vStr "b", [("id", PVal.vStr "b"), ("power", PVal.vStr "off")])]
        (.ok [[("id", PVal.vStr "a")], [("id", PVal.vStr "b")]])
        (fun d => if d = PVal.vStr "a"
                  then .ok [("power", PVal.vStr "on")] else .error ())).1
      (PVal.vStr "b")
      = some [("id", PVal.vStr "b"), ("power", PVal.vStr "off")]
  ∧ (refreshDevices
        [(PVal.vStr "a", [("id", PVal.vStr "a"), ("power", PVal.vStr "off")]),
         (PVal.vStr "b", [("id", PVal.vStr "b"), ("power", PVal.vStr "off")])]
        (.ok [[("id", PVal.vStr "a")], [("id", PVal.vStr "b")]])
        (fun d => if d = PVal.vStr "a"
                  then .ok [("power", PVal.vStr "on")] else .error ())).2 = true :=
  refresh_partial_failure_keeps_lastgood _ _ _ _ _ _ _ "a" "b"
    rfl (by decide) rfl (by decide) (by decide) rfl rfl rfl rfl

/-- C5 counterexample: device "c" is known before the refresh; `get_devices`
succeeds returning an empty listing; the refresh succeeds and the registry
afterwards is empty — the device was removed without any device-removed event
(the code has no such event path at all). -/
theorem successful_refresh_drops_unlisted_device :
    alGet [(PVal.vStr "c", [("id", PVal.vStr "c")])] (PVal.vStr "c")
        = some [("id", PVal.vStr "c")]
  ∧ refreshDevices [(PVal.vStr "c", [("id", PVal.vStr "c")])] (.ok [])
        (fun _ => .error ()) = ([], true) :=
  ⟨rfl, rfl⟩

/-- C5 amended: a successful refresh replaces the registry with the devices of
the current listing — any previously known device whose id no listed device
carries is removed, independently of any status outcome; the last-known-good
retention applies only to devices still listed. -/
theorem refresh_registry_keys_from_listing
    (devicesPrev : Registry) (statusOf : PVal → Except Unit Rec)
    (devices : List Rec) (k : PVal)
    (h : ∀ d ∈ devices, dictGet d "id" ≠ some k) :
    alGet (refreshDevices devicesPrev (.ok devices) statusOf).1 k = none :=
  foldl_updateDeviceStep_absent devicesPrev statusOf devices k h [] rfl

/-- C5 amended witness: the concrete empty-listing refresh removes the
previously known device "c". -/
theorem refresh_registry_keys_from_listing_witness :
    alGet (refreshDevices [(PVal.vStr "c", [("id", PVal.vStr "c")])] (.ok [])
        (fun _ => .error ())).1 (PVal.vStr "c") = none :=
  refresh_registry_keys_from_listing _ _ [] (PVal.vStr "c") (by simp)

/-- C3 counterexample: encoding is as claimed for intensities 50 and 51, but
the only decoder, `_parse_sensor_data`, returns the same fixed placeholder
sample for both frames, so no decoding whatsoever can return the encoded
parameters — the round-trip `decode(encode(op, params)) == params` fails. -/
theorem codec_roundtrip_impossible :
    build_command_packet CMD_SET_LIGHT [("intensity", PVal.vInt 50)] = .ok [0x10, 0x32]
  ∧ build_command_packet CMD_SET_LIGHT [("intensity", PVal.vInt 51)] = .ok [0x10, 0x33]
  ∧ parse_sensor_data 0 [0x10, 0x32] = parse_sensor_data 0 [0x10, 0x33]
  ∧ ¬ ∃ recover : MarsProSensorData → Int,
      recover (parse_sensor_data 0 [0x10, 0x32]) = 50
      ∧ recover (parse_sensor_data 0 [0x10, 0x33]) = 51 := by
  refine ⟨rfl, rfl, rfl, ?_⟩
  rintro ⟨f, h50, h51⟩
  exact absurd (h50.symm.trans h51) (by decide)

/-- C3 amended: `_build_command_packet` at `CMD_SET_LIGHT` emits the opcode
byte followed by the one-byte intensity, and an out-of-range intensity makes
`struct.pack` raise while packing (so no frame is produced); but decoding is
input-independent: `_parse_sensor_data` returns its fixed placeholder for
every frame, so the frame `[0x10, 0x32]` does not decode to the encoded
parameters. -/
theorem set_light_encode_and_fixed_decode (i : Int) :
    (0 ≤ i ∧ i ≤ 255 →
      build_command_packet CMD_SET_LIGHT [("intensity", PVal.vInt i)]
        = .ok [CMD_SET_LIGHT, i.toNat])
  ∧ ((i < 0 ∨ 255 < i) →
      build_command_packet CMD_SET_LIGHT [("intensity", PVal.vInt i)] = .error ())
  ∧ (∀ (t : ℚ) (f g : List Nat), parse_sensor_data t f = parse_sensor_data t g) := by
  refine ⟨?_, ?_, fun t f g => rfl⟩
  · intro h
    simp [build_command_packet, dictGet, alGet, h]
  · intro h
    have hn : ¬ (0 ≤ i ∧ i ≤ 255) := by omega
    simp [build_command_packet, dictGet, alGet, hn]

/-- C3 amended witness: the in-range intensity 50 encodes to `[0x10, 0x32]`
and the out-of-range intensity 300 is rejected. -/
theorem set_light_encode_and_fixed_decode_witness :
    build_command_packet CMD_SET_LIGHT [("intensity", PVal.vInt 50)]
      = .ok [CMD_SET_LIGHT, 50]
  ∧ build_command_packet CMD_SET_LIGHT [("intensity", PVal.vInt 300)] = .error () :=
  ⟨(set_light_encode_and_fixed_decode 50).1 (by decide),
   (set_light_encode_and_fixed_decode 300).2.1 (by decide)⟩

/-- C6 counterexample: a connect whose transport step fails, invoked while
the link is already connected, reports the failure (`false` in place of
Ready) yet leaves `_connected` true — the exception handler only logs and
returns, never resetting `_connected` — so the link does not end in the
Disconnected state; no `ConnectionError` is raised either. -/
theorem connect_failure_from_connected_counterexample :
    (connect ⟨true, [], []⟩ false none).2 = false
  ∧ (connect ⟨true, [], []⟩ false none).1.connected = true :=
  ⟨rfl, rfl⟩

/-- C6 amended: `connect` never reports Ready without both the transport
connect and service discovery having completed, from any starting state; but
on any step failure it merely returns `false` with the client state left
unchanged — so a connect begun while disconnected ends disconnected, while a
failing connect begun while already connected leaves `_connected` true, and
the failure is signalled only by the `false` return (the exception is logged
and swallowed, no `ConnectionError` reaches the caller). -/
theorem connect_failure_keeps_prior_state (st : BLEClientState) (connectOk : Bool)
    (discovered : Option (List (String × List String))) :
    ((connect st connectOk discovered).2 = true →
        connectOk = true ∧ ∃ svcs, discovered = some svcs)
  ∧ ((connectOk = false ∨ discovered = none) →
        connect st connectOk discovered = (st, false)) := by
  constructor
  · intro h
    cases connectOk <;> cases discovered <;> simp_all [connect]
  · intro h
    rcases h with h | h
    · subst h; simp [connect]
    · subst h; cases connectOk <;> simp [connect]

/-- C6 amended witness: a transport-step failure starting disconnected
returns the disconnected state unchanged together with the failure result. -/
theorem connect_failure_keeps_prior_state_witness :
    ((false = false ∨ (none : Option (List (String × List String))) = none))
  ∧ connect ⟨false, [], []⟩ false none = (⟨false, [], []⟩, false) :=
  ⟨Or.inl rfl,
   (connect_failure_keeps_prior_state ⟨false, [], []⟩ false none).2 (Or.inl rfl)⟩

/-- C8 counterexample: with the link not connected and the unknown command
"fly", `_send_command_ble` performs a transport connection attempt (I/O)
before the command is validated and rejected. -/
theorem send_command_ble_connects_before_validation :
    send_command_ble false true "fly" [] true
      = ([BLEAct.connectAttempt], .error ()) :=
  rfl

/-- C8 amended: a command `_build_ble_command` rejects is refused before any
write — no write to the command characteristic ever happens, and with the
link already connected no I/O at all precedes the rejection; but when the
link is not connected, the implicit connect attempt runs before validation. -/
theorem unknown_command_rejected_before_write (isConnected connectOk writeOk : Bool)
    (command : String) (kwargs : Rec)
    (h : build_ble_command command kwargs = .error ()) :
    (∀ p, BLEAct.writeGatt p ∉ (send_command_ble isConnected connectOk command kwargs writeOk).1)
  ∧ (isConnected = true →
      (send_command_ble isConnected connectOk command kwargs writeOk).1 = []) := by
  constructor
  · intro p
    cases isConnected <;> cases connectOk <;>
      simp [send_command_ble, send_command_ble_body, h]
  · intro hc
    subst hc
    simp [send_command_ble, send_command_ble_body, h]

/-- C8 amended witness: the unknown command "fly" on a disconnected link. -/
theorem unknown_command_rejected_before_write_witness :
    build_ble_command "fly" [] = .error ()
  ∧ ((∀ p, BLEAct.writeGatt p ∉ (send_command_ble false true "fly" [] true).1)
     ∧ (false = true → (send_command_ble false true "fly" [] true).1 = [])) :=
  ⟨rfl, unknown_command_rejected_before_write false true true "fly" [] rfl⟩

/-- C9 counterexample: with a cached token, a 401 response to `GET /devices`
makes the call raise immediately — the cached credential is kept (not
invalidated), no login exchange happens, and no retry of the operation is
performed (exactly one HTTP request in the trace). -/
theorem cloud_401_keeps_token_no_retry :
    get_devices_cloud ⟨true, some "tok"⟩ 200 (some "fresh") 401 []
      = ([CloudAct.getDevicesReq], ⟨true, some "tok"⟩, .error ()) :=
  rfl

/-- C9 amended: authentication is lazy — with a session but no (or empty)
cached token, the login exchange runs before the single device-list request
and caches the returned token; but a 401-equivalent response with a cached
credential raises immediately: the credential is retained, and no
re-authentication or retry occurs. -/
theorem cloud_lazy_auth_no_401_retry (st : CloudState) (tok : String)
    (getStatus : Nat) (devList : List Rec)
    (hs : st.session = true) (ht : tokenFalsy st.authToken = true) (htok : tok ≠ "") :
    ((get_devices_cloud st 200 (some tok) getStatus devList).1
        = [CloudAct.loginPost, CloudAct.getDevicesReq]
     ∧ (get_devices_cloud st 200 (some tok) getStatus devList).2.1.authToken = some tok)
  ∧ (∀ (st' : CloudState) (ls : Nat) (rt : Option String) (dl : List Rec),
       st'.session = true → tokenFalsy st'.authToken = false →
       get_devices_cloud st' ls rt 401 dl = ([CloudAct.getDevicesReq], st', .error ())) := by
  refine ⟨?_, ?_⟩
  · have htf : tokenFalsy (some tok) = false := by
      simp [tokenFalsy, htok]
    by_cases hg : getStatus = 200 <;>
      simp [get_devices_cloud, authenticate, hs, ht, htf, hg]
  · intro st' ls rt dl hs' ht'
    simp [get_devices_cloud, authenticate, hs', ht']

/-- C9 amended witness: a first call with a session and no cached token, the
login returning 200 with token "t". -/
theorem cloud_lazy_auth_no_401_retry_witness :
    (⟨true, none⟩ : CloudState).session = true
  ∧ tokenFalsy (⟨true, none⟩ : CloudState).authToken = true
  ∧ ("t" : String) ≠ ""
  ∧ (((get_devices_cloud ⟨true, none⟩ 200 (some "t") 200 []).1
        = [CloudAct.loginPost, CloudAct.getDevicesReq]
      ∧ (get_devices_cloud ⟨true, none⟩ 200 (some "t") 200 []).2.1.authToken = some "t")
     ∧ (∀ (st' : CloudState) (ls : Nat) (rt : Option String) (dl : List Rec),
         st'.session = true → tokenFalsy st'.authToken = false →
         get_devices_cloud st' ls rt 401 dl = ([CloudAct.getDevicesReq], st', .error ()))) :=
  ⟨rfl, rfl, by decide, cloud_lazy_auth_no_401_retry ⟨true, none⟩ "t" 200 [] rfl rfl (by decide)⟩

/-- C10: the registry read accessor `get_device` is total — a missing device
id yields the empty record, a present one yields exactly the stored record;
it neither raises nor returns a null. -/
theorem registry_read_accessors_total (devices : Registry) (device_id : String) :
    (alGet devices (PVal.vStr device_id) = none → get_device devices device_id = [])
  ∧ (∀ r, alGet devices (PVal.vStr device_id) = some r →
      get_device devices device_id = r) := by
  constructor
  · intro h; simp [get_device, h]
  · intro r h; simp [get_device, h]

/-- C10 witness: looking up the unknown id "x" in the empty registry yields
the empty record. -/
theorem registry_read_accessors_total_witness :
    alGet ([] : Registry) (PVal.vStr "x") = none
  ∧ get_device [] "x" = [] :=
  ⟨rfl, (registry_read_accessors_total [] "x").1 rfl⟩

end MarsPro
